import Mathlib

/-!
Verification of the calibration core of `src/calibration.py` from the
posture-alignment repository.

Embedding conventions:
* Landmark coordinates, visibilities, durations and clock readings are embedded
  as exact rationals (`ℚ`); the source's floats carry exact decimal literals in
  every scenario of interest, and the spec states all numeric properties up to
  the format's own precision.
* The one genuinely irrational quantity, the `atan2`-derived neck angle, lives
  in `ℝ` (via `Complex.arg`, whose value convention on the half-open interval
  (-π, π] agrees with `math.atan2`).
* Reads of the two clocks (`time.monotonic()` inside `add_frame`/`progress`,
  `time.time()` inside `_compute_baseline`) are embedded as explicit `now` /
  `wall_now` parameters threaded to the call sites that the source reads them
  at.
* Fallible code paths (an out-of-range landmark index, subtracting a missing
  start time, saving without a baseline) are embedded with `Except Unit`.
* MediaPipe's landmark list is embedded as a lookup function
  `Nat → Option LandmarkPoint`: `none` models an index that is absent, whose
  access raises in the source.
-/

namespace PostureCalib

/-- MediaPipe landmark index of the nose (source constant `NOSE`). -/
def NOSE : Nat := 0

/-- Source constant `LEFT_EAR`. -/
def LEFT_EAR : Nat := 7

/-- Source constant `RIGHT_EAR`. -/
def RIGHT_EAR : Nat := 8

/-- Source constant `LEFT_SHOULDER`. -/
def LEFT_SHOULDER : Nat := 11

/-- Source constant `RIGHT_SHOULDER`. -/
def RIGHT_SHOULDER : Nat := 12

/-- Source constant `LEFT_HIP`. -/
def LEFT_HIP : Nat := 23

/-- Source constant `RIGHT_HIP`. -/
def RIGHT_HIP : Nat := 24

/-- Source constant `KEY_LANDMARKS`: the 7 required landmark indices. -/
def KEY_LANDMARKS : List Nat :=
  [NOSE, LEFT_EAR, RIGHT_EAR, LEFT_SHOULDER, RIGHT_SHOULDER, LEFT_HIP, RIGHT_HIP]

/-- Source constant `CAPTURE_DURATION_SECONDS`. -/
def CAPTURE_DURATION_SECONDS : ℚ := 5

/-- Source dataclass `LandmarkPoint`: one tracked body point. -/
structure LandmarkPoint where
  x : ℚ
  y : ℚ
  z : ℚ
  visibility : ℚ
deriving DecidableEq

/-- One extracted frame: the source's `dict[int, dict]` produced by
`_extract_frame`, which is total exactly on the 7 `KEY_LANDMARKS` indices, so
it is embedded as a record with one `LandmarkPoint` per required index. -/
structure Frame where
  nose : LandmarkPoint
  left_ear : LandmarkPoint
  right_ear : LandmarkPoint
  left_shoulder : LandmarkPoint
  right_shoulder : LandmarkPoint
  left_hip : LandmarkPoint
  right_hip : LandmarkPoint
deriving DecidableEq

/-- Lookup of a `Frame` by MediaPipe index, mirroring `frame[idx]` on the
source's extracted dict (whose keys are exactly `KEY_LANDMARKS`). -/
def Frame.get (f : Frame) (idx : Nat) : Option LandmarkPoint :=
  if idx = NOSE then some f.nose
  else if idx = LEFT_EAR then some f.left_ear
  else if idx = RIGHT_EAR then some f.right_ear
  else if idx = LEFT_SHOULDER then some f.left_shoulder
  else if idx = RIGHT_SHOULDER then some f.right_shoulder
  else if idx = LEFT_HIP then some f.left_hip
  else if idx = RIGHT_HIP then some f.right_hip
  else none

/-- A raw MediaPipe landmark result: `landmarks.landmark[idx]` is a partial
positional lookup (`none` = index out of range, which raises in Python). -/
def RawLandmarks : Type := Nat → Option LandmarkPoint

/-- Source enum `CalibrationState`. -/
inductive CalibrationState where
  | IDLE
  | CAPTURING
  | COMPLETE
  | FAILED
deriving DecidableEq

/-- The real-valued forward-head angle, see `_neck_angle` below. -/
noncomputable def atan2 (y x : ℝ) : ℝ := Complex.arg ⟨x, y⟩

/-- `math.degrees`: radians to degrees. -/
noncomputable def degrees (r : ℝ) : ℝ := r * (180 / Real.pi)

/-- Source function `_neck_angle(ear, shoulder)`: forward head angle from
vertical in degrees, `dx = ear.x - shoulder.x`, `dy = shoulder.y - ear.y`
(inverted because MediaPipe y grows downward), result
`math.degrees(math.atan2(dx, dy))`. -/
noncomputable def _neck_angle (ear shoulder : LandmarkPoint) : ℝ :=
  degrees (atan2 ((ear.x - shoulder.x : ℚ) : ℝ) ((shoulder.y - ear.y : ℚ) : ℝ))

/-- Source dataclass `PostureBaseline`: the 7 averaged points plus the
precomputed metrics and the capture timestamp.  `neck_angle` is the only
irrational-valued field and is embedded in `ℝ`. -/
structure PostureBaseline where
  nose : LandmarkPoint
  left_ear : LandmarkPoint
  right_ear : LandmarkPoint
  left_shoulder : LandmarkPoint
  right_shoulder : LandmarkPoint
  left_hip : LandmarkPoint
  right_hip : LandmarkPoint
  neck_angle : ℝ
  shoulder_y_avg : ℚ
  shoulder_width : ℚ
  torso_centroid_x : ℚ
  torso_centroid_y : ℚ
  captured_at : ℚ

/-- The arithmetic mean of a list of points, taken independently in each of
the four fields; building block of `_average_frames`. -/
def avgPoint (pts : List LandmarkPoint) : LandmarkPoint :=
  ⟨(pts.map LandmarkPoint.x).sum / pts.length,
   (pts.map LandmarkPoint.y).sum / pts.length,
   (pts.map LandmarkPoint.z).sum / pts.length,
   (pts.map LandmarkPoint.visibility).sum / pts.length⟩

/-- Source function `_average_frames`: for each required landmark index and
each of the fields x, y, z, visibility, the sum across all frames divided by
the number of frames.  The source divides by `len(frames)` and is only invoked
on a non-empty buffer. -/
def _average_frames (frames : List Frame) : Frame :=
  ⟨avgPoint (frames.map Frame.nose),
   avgPoint (frames.map Frame.left_ear),
   avgPoint (frames.map Frame.right_ear),
   avgPoint (frames.map Frame.left_shoulder),
   avgPoint (frames.map Frame.right_shoulder),
   avgPoint (frames.map Frame.left_hip),
   avgPoint (frames.map Frame.right_hip)⟩

/-- Source function `_compute_baseline(avg)`.  The source reads the wall clock
(`time.time()`) for `captured_at`; that read is embedded as the explicit
`wall_now` parameter. -/
noncomputable def _compute_baseline (avg : Frame) (wall_now : ℚ) : PostureBaseline :=
  ⟨avg.nose, avg.left_ear, avg.right_ear, avg.left_shoulder, avg.right_shoulder,
   avg.left_hip, avg.right_hip,
   _neck_angle avg.right_ear avg.right_shoulder,
   (avg.left_shoulder.y + avg.right_shoulder.y) / 2,
   |avg.right_shoulder.x - avg.left_shoulder.x|,
   (avg.left_shoulder.x + avg.right_shoulder.x + avg.left_hip.x + avg.right_hip.x) / 4,
   (avg.left_shoulder.y + avg.right_shoulder.y + avg.left_hip.y + avg.right_hip.y) / 4,
   wall_now⟩

/-- The session object: the mutable attributes of the source class
`CalibrationManager`. -/
structure CalibrationManager where
  capture_duration : ℚ
  min_visibility : ℚ
  state : CalibrationState
  baseline : Option PostureBaseline
  frames : List Frame
  start_time : Option ℚ

/-- Source `CalibrationManager.__init__(capture_duration, min_visibility)`. -/
def CalibrationManager.init (capture_duration min_visibility : ℚ) : CalibrationManager :=
  ⟨capture_duration, min_visibility, CalibrationState.IDLE, none, [], none⟩

/-- Source `CalibrationManager.start()`: clear the buffer, record the
monotonic clock (embedded as `now`), drop any prior baseline, enter
`CAPTURING`. -/
def CalibrationManager.start (s : CalibrationManager) (now : ℚ) : CalibrationManager :=
  { s with frames := [], start_time := some now, baseline := none,
           state := CalibrationState.CAPTURING }

/-- The generator inside `_frame_is_usable`: Python's `all(...)` over
`KEY_LANDMARKS` in order, short-circuiting on the first sub-threshold
landmark and raising (`Except.error`) on the first out-of-range index. -/
def usableFrom (min_visibility : ℚ) (lm : RawLandmarks) : List Nat → Except Unit Bool
  | [] => Except.ok true
  | idx :: rest =>
    match lm idx with
    | none => Except.error ()
    | some p =>
      if min_visibility ≤ p.visibility then usableFrom min_visibility lm rest
      else Except.ok false

/-- Source `CalibrationManager._frame_is_usable`: true only if all key
landmarks meet the visibility threshold. -/
def _frame_is_usable (min_visibility : ℚ) (lm : RawLandmarks) : Except Unit Bool :=
  usableFrom min_visibility lm KEY_LANDMARKS

/-- Source `CalibrationManager._extract_frame`: copy x, y, z, visibility of
each key landmark out of the raw result; an out-of-range index raises. -/
def _extract_frame (lm : RawLandmarks) : Except Unit Frame :=
  match lm NOSE, lm LEFT_EAR, lm RIGHT_EAR, lm LEFT_SHOULDER, lm RIGHT_SHOULDER,
        lm LEFT_HIP, lm RIGHT_HIP with
  | some a, some b, some c, some d, some e, some f, some g =>
    Except.ok ⟨a, b, c, d, e, f, g⟩
  | _, _, _, _, _, _, _ => Except.error ()

/-- Source `CalibrationManager._finalize()`: `FAILED` on an empty buffer,
otherwise average, build the baseline, and `COMPLETE`.  `wall_now` is the
wall-clock reading consumed by `_compute_baseline`. -/
noncomputable def _finalize (s : CalibrationManager) (wall_now : ℚ) : CalibrationManager :=
  if s.frames = [] then { s with state := CalibrationState.FAILED }
  else { s with
          baseline := some (_compute_baseline (_average_frames s.frames) wall_now),
          state := CalibrationState.COMPLETE }

/-- The tail of `add_frame`: compute `elapsed = now - start_time` (raising if
the start time is unset, as `None` subtraction does) and finalize once
`elapsed >= capture_duration`; returns the state together with the session. -/
noncomputable def tick (s : CalibrationManager) (now wall_now : ℚ) :
    Except Unit CalibrationState × CalibrationManager :=
  match s.start_time with
  | none => (Except.error (), s)
  | some t0 =>
    if s.capture_duration ≤ now - t0 then
      let s2 := _finalize s wall_now
      (Except.ok s2.state, s2)
    else (Except.ok s.state, s)

/-- Source `CalibrationManager.add_frame(landmarks)`.  Returns the
`CalibrationState` result (or the propagated exception) together with the
session as mutated up to that point. -/
noncomputable def add_frame (s : CalibrationManager) (landmarks : Option RawLandmarks)
    (now wall_now : ℚ) : Except Unit CalibrationState × CalibrationManager :=
  if s.state ≠ CalibrationState.CAPTURING then (Except.ok s.state, s)
  else
    match landmarks with
    | none => tick s now wall_now
    | some lm =>
      match _frame_is_usable s.min_visibility lm with
      | Except.error e => (Except.error e, s)
      | Except.ok false => tick s now wall_now
      | Except.ok true =>
        match _extract_frame lm with
        | Except.error e => (Except.error e, s)
        | Except.ok fr => tick { s with frames := s.frames ++ [fr] } now wall_now

/-- Source property `CalibrationManager.progress`: capture progress in
[0, 1]; the monotonic-clock read is the explicit `now`. -/
def CalibrationManager.progress (s : CalibrationManager) (now : ℚ) : ℚ :=
  if s.state = CalibrationState.IDLE then 0
  else if s.state = CalibrationState.COMPLETE ∨ s.state = CalibrationState.FAILED then 1
  else
    match s.start_time with
    | none => 0
    | some t0 => min ((now - t0) / s.capture_duration) 1

/-- A JSON value as far as the calibration record needs one: a number or an
object.  The embedding splits numbers into exact rationals (`num`) and the one
real-valued field (`real`), since the two cannot share a Lean type; both stand
for a plain JSON number. -/
inductive JVal where
  | num (q : ℚ)
  | real (r : ℝ)
  | obj (fields : List (String × JVal))

/-- Python dict key lookup, `d[key]` on an association list. -/
def jlookup : List (String × JVal) → String → Option JVal
  | [], _ => none
  | (k, v) :: rest, key => if k = key then some v else jlookup rest key

/-- `d[key]` expecting a rational number; a missing key raises `KeyError`. -/
def jnum (fields : List (String × JVal)) (key : String) : Except Unit ℚ :=
  match jlookup fields key with
  | some (JVal.num q) => Except.ok q
  | _ => Except.error ()

/-- `d[key]` expecting the real-valued number field. -/
def jreal (fields : List (String × JVal)) (key : String) : Except Unit ℝ :=
  match jlookup fields key with
  | some (JVal.real r) => Except.ok r
  | _ => Except.error ()

/-- `d[key]` expecting a nested object. -/
def jobj (fields : List (String × JVal)) (key : String) : Except Unit (List (String × JVal)) :=
  match jlookup fields key with
  | some (JVal.obj l) => Except.ok l
  | _ => Except.error ()

/-- Source function `_point_to_dict`. -/
def _point_to_dict (p : LandmarkPoint) : JVal :=
  JVal.obj [("x", JVal.num p.x), ("y", JVal.num p.y), ("z", JVal.num p.z),
            ("visibility", JVal.num p.visibility)]

/-- Source function `_point_from_dict`: rebuild a point from the four keys;
a missing key raises. -/
def _point_from_dict (j : JVal) : Except Unit LandmarkPoint :=
  match j with
  | JVal.obj fields => do
    let x ← jnum fields "x"
    let y ← jnum fields "y"
    let z ← jnum fields "z"
    let v ← jnum fields "visibility"
    Except.ok ⟨x, y, z, v⟩
  | _ => Except.error ()

/-- Source function `_baseline_to_dict`: the 7 point sub-records, the 5
derived metrics, and the timestamp, under their fixed key names. -/
noncomputable def _baseline_to_dict (b : PostureBaseline) : JVal :=
  JVal.obj
    [("nose", _point_to_dict b.nose),
     ("left_ear", _point_to_dict b.left_ear),
     ("right_ear", _point_to_dict b.right_ear),
     ("left_shoulder", _point_to_dict b.left_shoulder),
     ("right_shoulder", _point_to_dict b.right_shoulder),
     ("left_hip", _point_to_dict b.left_hip),
     ("right_hip", _point_to_dict b.right_hip),
     ("neck_angle", JVal.real b.neck_angle),
     ("shoulder_y_avg", JVal.num b.shoulder_y_avg),
     ("shoulder_width", JVal.num b.shoulder_width),
     ("torso_centroid_x", JVal.num b.torso_centroid_x),
     ("torso_centroid_y", JVal.num b.torso_centroid_y),
     ("captured_at", JVal.num b.captured_at)]

/-- Source function `_baseline_from_dict`: rebuild a `PostureBaseline` from a
parsed record; any missing key raises (`KeyError`). -/
def _baseline_from_dict (j : JVal) : Except Unit PostureBaseline :=
  match j with
  | JVal.obj d => do
    let nose ← jobj d "nose" >>= fun l => _point_from_dict (JVal.obj l)
    let left_ear ← jobj d "left_ear" >>= fun l => _point_from_dict (JVal.obj l)
    let right_ear ← jobj d "right_ear" >>= fun l => _point_from_dict (JVal.obj l)
    let left_shoulder ← jobj d "left_shoulder" >>= fun l => _point_from_dict (JVal.obj l)
    let right_shoulder ← jobj d "right_shoulder" >>= fun l => _point_from_dict (JVal.obj l)
    let left_hip ← jobj d "left_hip" >>= fun l => _point_from_dict (JVal.obj l)
    let right_hip ← jobj d "right_hip" >>= fun l => _point_from_dict (JVal.obj l)
    let neck_angle ← jreal d "neck_angle"
    let shoulder_y_avg ← jnum d "shoulder_y_avg"
    let shoulder_width ← jnum d "shoulder_width"
    let torso_centroid_x ← jnum d "torso_centroid_x"
    let torso_centroid_y ← jnum d "torso_centroid_y"
    let captured_at ← jnum d "captured_at"
    Except.ok ⟨nose, left_ear, right_ear, left_shoulder, right_shoulder, left_hip,
               right_hip, neck_angle, shoulder_y_avg, shoulder_width,
               torso_centroid_x, torso_centroid_y, captured_at⟩
  | _ => Except.error ()

/-- A file path broken into its components, embedding `pathlib.Path`. -/
def FilePath : Type := List String

/-- The file-system state `save` interacts with: the set of directories that
exist and the records stored at each path (newest first; lookup takes the
first hit, so writing is prepending). -/
structure FileSystem where
  dirs : List (List String)
  files : List (List String × JVal)

/-- All non-empty initial segments of a path: the directories
`Path.mkdir(parents=True, exist_ok=True)` guarantees to exist afterwards. -/
def initSegs : List String → List (List String)
  | [] => []
  | a :: rest => [a] :: (initSegs rest).map (fun q => a :: q)

/-- The record currently stored at a path, if any. -/
def FileSystem.readAt (fs : FileSystem) (path : List String) : Option JVal :=
  match fs.files.find? (fun e => e.1 = path) with
  | some e => some e.2
  | none => none

/-- Source `CalibrationManager.save(path)`: raise `RuntimeError` when there is
no baseline; otherwise create the missing parents of `path` and (over)write
the serialized record at `path`.  The session is returned unchanged alongside,
mirroring that the method never assigns to `self`. -/
noncomputable def CalibrationManager.save (s : CalibrationManager) (path : List String)
    (fs : FileSystem) : Except Unit Unit × FileSystem × CalibrationManager :=
  match s.baseline with
  | none => (Except.error (), fs, s)
  | some b =>
    (Except.ok (),
     ⟨initSegs path.dropLast ++ fs.dirs, (path, _baseline_to_dict b) :: fs.files⟩,
     s)

/-- A fully-visible landmark point used in concrete runs. -/
def pt0 : LandmarkPoint := ⟨1/2, 1/2, 0, 9/10⟩

/-- A complete 33-landmark MediaPipe result, every point fully visible. -/
def goodLm : RawLandmarks := fun idx => if idx < 33 then some pt0 else none

/-- Like `goodLm` but the nose visibility is 1/10, below the default 1/2
threshold. -/
def badLm : RawLandmarks :=
  fun idx => if idx = NOSE then some ⟨1/2, 1/2, 0, 1/10⟩
             else if idx < 33 then some pt0 else none

/-- The frame `_extract_frame` produces from `goodLm`. -/
def fr0 : Frame := ⟨pt0, pt0, pt0, pt0, pt0, pt0, pt0⟩

/-- A concrete baseline value for exercising `save` and the terminal states. -/
noncomputable def b0 : PostureBaseline :=
  ⟨pt0, pt0, pt0, pt0, pt0, pt0, pt0, 0, 1/2, 0, 1/2, 1/2, 0⟩

/-- A capturing session that started at monotonic instant 0. -/
def capSession : CalibrationManager :=
  ⟨5, 1/2, CalibrationState.CAPTURING, none, [], some 0⟩

/-- A session that completed with baseline `b0`. -/
noncomputable def doneSession : CalibrationManager :=
  ⟨5, 1/2, CalibrationState.COMPLETE, some b0, [fr0], some 0⟩

/-- An empty file system. -/
def fs0 : FileSystem := ⟨[], []⟩

/-- Sessions reachable from the constructor through the mutating public API
(`start` and `add_frame`), with arbitrary clock readings and inputs; an
`add_frame` step keeps the session it left behind even when it raised. -/
inductive Reachable : CalibrationManager → Prop where
  | init : ∀ capture_duration min_visibility,
      Reachable (CalibrationManager.init capture_duration min_visibility)
  | start : ∀ s now, Reachable s → Reachable (CalibrationManager.start s now)
  | frame : ∀ s landmarks now wall_now, Reachable s →
      Reachable (add_frame s landmarks now wall_now).2

/-! ## Helper lemmas -/

/-- Unfolding of the short-circuiting `all(...)` generator: it yields `ok true`
exactly when every listed index is present and meets the threshold. -/
theorem usableFrom_ok_true_iff (mv : ℚ) (lm : RawLandmarks) (l : List Nat) :
    usableFrom mv lm l = Except.ok true ↔
      ∀ idx ∈ l, ∃ p, lm idx = some p ∧ mv ≤ p.visibility := by
  induction l with
  | nil => simp [usableFrom]
  | cons a rest ih =>
    simp only [usableFrom, List.mem_cons, forall_eq_or_imp]
    cases h : lm a with
    | none => simp [h]
    | some p =>
      by_cases hv : mv ≤ p.visibility
      · simp [h, hv, ih]
      · simp [h, hv]

/-- `tick` never touches the frame buffer. -/
theorem tick_frames_eq (s : CalibrationManager) (now wall_now : ℚ) :
    (tick s now wall_now).2.frames = s.frames := by
  unfold tick
  cases hst : s.start_time with
  | none => rfl
  | some t0 =>
    by_cases h : s.capture_duration ≤ now - t0
    · by_cases hf : s.frames = [] <;> simp [h, _finalize, hf]
    · simp [h]

/-! ## Claim theorems -/

/-- C2: `_frame_is_usable` returns true iff every one of the 7 required
landmark identifiers is present in the raw landmark set with confidence at
least the configured minimum, and in a `CAPTURING` session a frame failing
that condition leaves the accepted-sample buffer unchanged. -/
theorem frame_filter_spec (mv : ℚ) (lm : RawLandmarks) (s : CalibrationManager)
    (now wall_now : ℚ) :
    (_frame_is_usable mv lm = Except.ok true ↔
      ∀ idx ∈ KEY_LANDMARKS, ∃ p, lm idx = some p ∧ mv ≤ p.visibility) ∧
    (s.state = CalibrationState.CAPTURING →
      ¬ (∀ idx ∈ KEY_LANDMARKS, ∃ p, lm idx = some p ∧ s.min_visibility ≤ p.visibility) →
      (add_frame s (some lm) now wall_now).2.frames = s.frames) := by
  refine ⟨usableFrom_ok_true_iff mv lm KEY_LANDMARKS, fun hs hbad => ?_⟩
  have hne : _frame_is_usable s.min_visibility lm ≠ Except.ok true := by
    intro hEq
    exact hbad ((usableFrom_ok_true_iff s.min_visibility lm KEY_LANDMARKS).mp hEq)
  unfold add_frame
  simp only [hs]
  cases hu : _frame_is_usable s.min_visibility lm with
  | error e => simp
  | ok b =>
    cases b with
    | false => simp [tick_frames_eq]
    | true => exact absurd hu hne

/-- C2 witness: a frame whose nose is below the default threshold is rejected
by the filter and leaves the buffer of a capturing session unchanged. -/
theorem frame_filter_spec_witness :
    (add_frame capSession (some badLm) 1 1).2.frames = capSession.frames := by
  refine (frame_filter_spec (1/2) badLm capSession 1 1).2 rfl (fun hall => ?_)
  obtain ⟨p, hp, hv⟩ := hall NOSE (by decide)
  rw [show badLm NOSE = some ⟨1/2, 1/2, 0, 1/10⟩ from rfl] at hp
  cases hp
  norm_num [capSession] at hv

/-- C3: for every non-empty list of frames, `_average_frames` returns, for
each of the 7 required landmark projections, the arithmetic mean of x, y, z
and visibility across the inputs; averaging identical frames returns the
frame unchanged. -/
theorem average_frames_spec (frames : List Frame) (h : frames ≠ []) :
    (∀ proj ∈ [Frame.nose, Frame.left_ear, Frame.right_ear, Frame.left_shoulder,
               Frame.right_shoulder, Frame.left_hip, Frame.right_hip],
      (proj (_average_frames frames)).x
          = (frames.map fun f => (proj f).x).sum / frames.length ∧
      (proj (_average_frames frames)).y
          = (frames.map fun f => (proj f).y).sum / frames.length ∧
      (proj (_average_frames frames)).z
          = (frames.map fun f => (proj f).z).sum / frames.length ∧
      (proj (_average_frames frames)).visibility
          = (frames.map fun f => (proj f).visibility).sum / frames.length) ∧
    (∀ f, (∀ g ∈ frames, g = f) → _average_frames frames = f) := by
  constructor
  · intro proj hproj
    simp only [List.mem_cons, List.not_mem_nil, or_false] at hproj
    rcases hproj with rfl | rfl | rfl | rfl | rfl | rfl | rfl <;>
      exact ⟨by simp [_average_frames, avgPoint, List.map_map, Function.comp_def],
             by simp [_average_frames, avgPoint, List.map_map, Function.comp_def],
             by simp [_average_frames, avgPoint, List.map_map, Function.comp_def],
             by simp [_average_frames, avgPoint, List.map_map, Function.comp_def]⟩
  · intro f hf
    have hlen : frames.length ≠ 0 := by
      simpa [List.length_eq_zero] using h
    have hrep : frames = List.replicate frames.length f :=
      List.eq_replicate_of_mem hf
    have havg : ∀ p : LandmarkPoint,
        avgPoint (List.replicate frames.length p) = p := by
      intro p
      have hcast : (frames.length : ℚ) ≠ 0 := Nat.cast_ne_zero.mpr hlen
      simp [avgPoint, List.map_replicate, List.sum_replicate, nsmul_eq_mul,
        mul_div_assoc, mul_div_cancel_left₀ _ hcast]
    calc _average_frames frames
        = _average_frames (List.replicate frames.length f) := by rw [← hrep]
      _ = f := by
          simp [_average_frames, List.map_replicate, havg]

/-- C3 witness: averaging two copies of the same frame returns that frame. -/
theorem average_frames_spec_witness : _average_frames [fr0, fr0] = fr0 :=
  (average_frames_spec [fr0, fr0] (by simp)).2 fr0 (by
    intro g hg
    simp only [List.mem_cons, List.not_mem_nil, or_false] at hg
    rcases hg with rfl | rfl <;> rfl)

/-- C5: serializing a baseline and deserializing the result reproduces the
baseline exactly: every scalar field and every point sub-record round-trips.
The embedding carries exact values, which is within the JSON format's own
numeric precision as the claim allows. -/
theorem baseline_round_trip (b : PostureBaseline) :
    _baseline_from_dict (_baseline_to_dict b) = Except.ok b := rfl

/-- C7: when the state is not `CAPTURING` (so in `IDLE`, `COMPLETE` or
`FAILED`), `add_frame` on any input is a silent no-op — it returns the current
state without error and leaves the whole session (state, buffer, start
instant, stored baseline, configuration) unchanged — and `save` never mutates
the session either, so no operation but a fresh `start` leaves the terminal
states. -/
theorem add_frame_noop_spec (s : CalibrationManager) (landmarks : Option RawLandmarks)
    (now wall_now : ℚ) (path : List String) (fs : FileSystem)
    (h : s.state ≠ CalibrationState.CAPTURING) :
    add_frame s landmarks now wall_now = (Except.ok s.state, s) ∧
    (CalibrationManager.save s path fs).2.2 = s := by
  constructor
  · simp [add_frame, h]
  · cases hb : s.baseline <;> simp [CalibrationManager.save, hb]

/-- C7 witness: feeding a frame to a completed session changes nothing. -/
theorem add_frame_noop_spec_witness :
    add_frame doneSession (some goodLm) 99 99 = (Except.ok doneSession.state, doneSession) ∧
    (CalibrationManager.save doneSession ["x"] fs0).2.2 = doneSession :=
  add_frame_noop_spec doneSession (some goodLm) 99 99 ["x"] fs0 (by
    rw [show doneSession.state = CalibrationState.COMPLETE from rfl]
    decide)

/-- C8: `save` fails with the no-baseline error iff the session holds no
baseline, in which case the file system and the session (state, buffer,
configuration) are untouched; with a baseline present it writes the serialized
record at the destination (overwriting whatever was there), ensures every
ancestor directory of the destination exists, and still leaves the session
unchanged. -/
theorem save_spec (s : CalibrationManager) (path : List String) (fs : FileSystem) :
    ((CalibrationManager.save s path fs).1 = Except.error () ↔ s.baseline = none) ∧
    (s.baseline = none → CalibrationManager.save s path fs = (Except.error (), fs, s)) ∧
    (∀ b, s.baseline = some b →
      (CalibrationManager.save s path fs).1 = Except.ok () ∧
      (CalibrationManager.save s path fs).2.1.readAt path = some (_baseline_to_dict b) ∧
      (∀ d ∈ initSegs path.dropLast, d ∈ (CalibrationManager.save s path fs).2.1.dirs) ∧
      (CalibrationManager.save s path fs).2.2 = s) := by
  refine ⟨?_, ?_, ?_⟩
  · cases hb : s.baseline <;> simp [CalibrationManager.save, hb]
  · intro hb
    simp [CalibrationManager.save, hb]
  · intro b hb
    refine ⟨by simp [CalibrationManager.save, hb], ?_, ?_,
      by simp [CalibrationManager.save, hb]⟩
    · simp [CalibrationManager.save, hb, FileSystem.readAt, List.find?]
    · intro d hd
      simp [CalibrationManager.save, hb, List.mem_append, hd]

/-- C8 witness: saving `doneSession`'s baseline into an empty file system
stores the record at the destination and creates the parent directory. -/
theorem save_spec_witness :
    (CalibrationManager.save doneSession ["data", "calibration.json"] fs0).2.1.readAt
        ["data", "calibration.json"] = some (_baseline_to_dict b0) ∧
    ["data"] ∈ (CalibrationManager.save doneSession ["data", "calibration.json"] fs0).2.1.dirs ∧
    (CalibrationManager.save doneSession ["data", "calibration.json"] fs0).2.2 = doneSession := by
  have h := (save_spec doneSession ["data", "calibration.json"] fs0).2.2 b0 rfl
  exact ⟨h.2.1, h.2.2.1 ["data"] (by simp [initSegs]), h.2.2.2⟩

/-- C9: `_compute_baseline` copies the 7 averaged points through unchanged,
derives the metrics from them (neck angle from the right ear/shoulder pair),
stamps `captured_at` with the injected wall-clock reading, and is a pure
function of those two inputs: equal averaged frames and equal injected times
give equal baselines. -/
theorem compute_baseline_spec (avg : Frame) (wall_now : ℚ) :
    (_compute_baseline avg wall_now).nose = avg.nose ∧
    (_compute_baseline avg wall_now).left_ear = avg.left_ear ∧
    (_compute_baseline avg wall_now).right_ear = avg.right_ear ∧
    (_compute_baseline avg wall_now).left_shoulder = avg.left_shoulder ∧
    (_compute_baseline avg wall_now).right_shoulder = avg.right_shoulder ∧
    (_compute_baseline avg wall_now).left_hip = avg.left_hip ∧
    (_compute_baseline avg wall_now).right_hip = avg.right_hip ∧
    (_compute_baseline avg wall_now).neck_angle
        = _neck_angle avg.right_ear avg.right_shoulder ∧
    (_compute_baseline avg wall_now).shoulder_y_avg
        = (avg.left_shoulder.y + avg.right_shoulder.y) / 2 ∧
    (_compute_baseline avg wall_now).shoulder_width
        = |avg.right_shoulder.x - avg.left_shoulder.x| ∧
    (_compute_baseline avg wall_now).torso_centroid_x
        = (avg.left_shoulder.x + avg.right_shoulder.x + avg.left_hip.x + avg.right_hip.x) / 4 ∧
    (_compute_baseline avg wall_now).torso_centroid_y
        = (avg.left_shoulder.y + avg.right_shoulder.y + avg.left_hip.y + avg.right_hip.y) / 4 ∧
    (_compute_baseline avg wall_now).captured_at = wall_now ∧
    (∀ avg2 wall2, avg2 = avg → wall2 = wall_now →
      _compute_baseline avg2 wall2 = _compute_baseline avg wall_now) :=
  ⟨rfl, rfl, rfl, rfl, rfl, rfl, rfl, rfl, rfl, rfl, rfl, rfl, rfl,
   fun _ _ h1 h2 => by rw [h1, h2]⟩

/-- C9 witness: two invocations on the frame `fr0` at time 7 agree, and the
timestamp is the injected time. -/
theorem compute_baseline_spec_witness :
    _compute_baseline fr0 7 = _compute_baseline fr0 7 ∧
    (_compute_baseline fr0 7).captured_at = 7 := by
  have h := compute_baseline_spec fr0 7
  exact ⟨h.2.2.2.2.2.2.2.2.2.2.2.2.2 fr0 7 rfl rfl, h.2.2.2.2.2.2.2.2.2.2.2.2.1⟩

/-- C6: `progress` is exactly 0 in `IDLE`, exactly 1 in `COMPLETE` and
`FAILED`, and `min(elapsed / capture_duration, 1)` while `CAPTURING`; it is
total (never throws on any session with a recorded start), never negative
whenever the clock has not run backwards past the start instant, and
monotonically non-decreasing in the clock while `CAPTURING`.  The hypotheses
capture the configured window duration being a positive time span and the
monotonic clock never reading earlier than the recorded start. -/
theorem progress_spec (s : CalibrationManager) (t0 now now2 : ℚ)
    (hdur : 0 < s.capture_duration) :
    (s.state = CalibrationState.IDLE → s.progress now = 0) ∧
    ((s.state = CalibrationState.COMPLETE ∨ s.state = CalibrationState.FAILED) →
      s.progress now = 1) ∧
    (s.state = CalibrationState.CAPTURING → s.start_time = some t0 →
      s.progress now = min ((now - t0) / s.capture_duration) 1) ∧
    ((∀ u, s.start_time = some u → u ≤ now) → 0 ≤ s.progress now) ∧
    (s.state = CalibrationState.CAPTURING → now ≤ now2 →
      s.progress now ≤ s.progress now2) := by
  refine ⟨fun h => by simp [CalibrationManager.progress, h], ?_, ?_, ?_, ?_⟩
  · intro h
    rcases h with h | h <;>
      simp [CalibrationManager.progress, h]
  · intro hs hst
    simp [CalibrationManager.progress, hs, hst]
  · intro hclock
    unfold CalibrationManager.progress
    rcases hstate : s.state <;> simp
    all_goals
      rcases hst : s.start_time with _ | t
    all_goals simp
    all_goals
      exact div_nonneg (sub_nonneg.mpr (hclock t hst)) hdur.le
  · intro hs hle
    rcases hst : s.start_time with _ | t
    · simp [CalibrationManager.progress, hs, hst]
    · have e1 : s.progress now = min ((now - t) / s.capture_duration) 1 := by
        simp [CalibrationManager.progress, hs, hst]
      have e2 : s.progress now2 = min ((now2 - t) / s.capture_duration) 1 := by
        simp [CalibrationManager.progress, hs, hst]
      rw [e1, e2]
      exact min_le_min ((div_le_div_iff_of_pos_right hdur).mpr (by linarith)) le_rfl

/-- C6 witness: a capturing session with a 5-second window started at instant
0, observed at instants 2 then 3. -/
theorem progress_spec_witness :
    capSession.progress 2 = min ((2 - 0) / capSession.capture_duration) 1 ∧
    0 ≤ capSession.progress 2 ∧
    capSession.progress 2 ≤ capSession.progress 3 := by
  have h := progress_spec capSession 0 2 3 (by norm_num [capSession])
  exact ⟨h.2.2.1 rfl rfl, h.2.2.2.1 (fun u hu => by
    rw [show capSession.start_time = some 0 from rfl] at hu
    rw [← Option.some_inj.mp hu]
    norm_num), h.2.2.2.2 rfl (by norm_num)⟩

/-- C1 (amended): reaching the configured window duration inside `add_frame`
finalizes the session: it transitions to `FAILED`, leaving the absent baseline
absent, exactly when the accepted-sample buffer is empty; with any non-empty
buffer — the code has no configurable minimum-sample count, so a single
accepted sample suffices — it stores the averaged baseline and transitions to
`COMPLETE`. -/
theorem finalize_spec (s : CalibrationManager) (t0 now wall_now : ℚ)
    (hs : s.state = CalibrationState.CAPTURING) (hst : s.start_time = some t0)
    (hb : s.baseline = none) (helapsed : s.capture_duration ≤ now - t0) :
    (s.frames = [] →
      add_frame s none now wall_now
        = (Except.ok CalibrationState.FAILED,
           { s with state := CalibrationState.FAILED }) ∧
      (add_frame s none now wall_now).2.baseline = none) ∧
    (s.frames ≠ [] →
      add_frame s none now wall_now
        = (Except.ok CalibrationState.COMPLETE,
           { s with state := CalibrationState.COMPLETE,
                    baseline := some (_compute_baseline
                      (_average_frames s.frames) wall_now) })) := by
  constructor
  · intro hf
    constructor
    · simp [add_frame, hs, tick, hst, helapsed, _finalize, hf]
    · simp [add_frame, hs, tick, hst, helapsed, _finalize, hf, hb]
  · intro hf
    simp [add_frame, hs, tick, hst, helapsed, _finalize, hf]

/-- C1 counterexample: the code has no minimum-sample configuration — the
constructor accepts only a window duration and a visibility threshold — and
one accepted sample followed by window expiry yields `COMPLETE` with a
baseline present, not `FAILED` with none as the claim's scenario asserts. -/
theorem finalize_min_samples_counterexample :
    ¬ ((add_frame (CalibrationManager.start (CalibrationManager.init 5 (1/2)) 0)
          (some goodLm) 5 5).2.state = CalibrationState.FAILED ∧
       (add_frame (CalibrationManager.start (CalibrationManager.init 5 (1/2)) 0)
          (some goodLm) 5 5).2.baseline = none) := by
  intro h
  have hc : (add_frame (CalibrationManager.start (CalibrationManager.init 5 (1/2)) 0)
      (some goodLm) 5 5).2.state = CalibrationState.COMPLETE := by
    norm_num [add_frame, tick, _finalize, _frame_is_usable, usableFrom, _extract_frame,
      CalibrationManager.start, CalibrationManager.init, goodLm, pt0, KEY_LANDMARKS,
      NOSE, LEFT_EAR, RIGHT_EAR, LEFT_SHOULDER, RIGHT_SHOULDER, LEFT_HIP, RIGHT_HIP]
  rw [hc] at h
  exact absurd h.1 (by decide)

/-- C1 witness (for the amended theorem): the session of the counterexample
scenario, one accepted sample and an expired window, lands in `COMPLETE` with
the averaged baseline stored. -/
theorem finalize_spec_witness :
    add_frame (CalibrationManager.start (CalibrationManager.init 5 (1/2)) 0)
        (some goodLm) 5 5
      = (Except.ok CalibrationState.COMPLETE,
         { CalibrationManager.start (CalibrationManager.init 5 (1/2)) 0 with
             state := CalibrationState.COMPLETE,
             frames := [fr0],
             baseline := some (_compute_baseline (_average_frames [fr0]) 5) }) := by
  have hstep : add_frame (CalibrationManager.start (CalibrationManager.init 5 (1/2)) 0)
      (some goodLm) 5 5
      = add_frame ({ CalibrationManager.start (CalibrationManager.init 5 (1/2)) 0 with
          frames := [fr0] }) none 5 5 := by
    norm_num [add_frame, tick, _finalize, _frame_is_usable, usableFrom, _extract_frame,
      CalibrationManager.start, CalibrationManager.init, goodLm, pt0, fr0, KEY_LANDMARKS,
      NOSE, LEFT_EAR, RIGHT_EAR, LEFT_SHOULDER, RIGHT_SHOULDER, LEFT_HIP, RIGHT_HIP]
  rw [hstep]
  exact ((finalize_spec _ 0 5 5 rfl rfl rfl (by norm_num [CalibrationManager.start,
    CalibrationManager.init])).2 (by simp))

/-- `atan2 0 x = 0` on the positive real axis, as for `math.atan2`. -/
theorem atan2_zero_of_pos (x : ℝ) (hx : 0 < x) : atan2 0 x = 0 := by
  unfold atan2
  exact Complex.arg_eq_zero_iff.mpr ⟨hx.le, rfl⟩

/-- `atan2 0 x = π` on the negative real axis, as for `math.atan2`. -/
theorem atan2_zero_of_neg (x : ℝ) (hx : x < 0) : atan2 0 x = Real.pi := by
  unfold atan2
  exact Complex.arg_eq_pi_iff.mpr ⟨hx, rfl⟩

/-- `atan2 1 1 = π / 4`. -/
theorem atan2_one_one : atan2 1 1 = Real.pi / 4 := by
  unfold atan2
  rw [Complex.arg_of_re_nonneg (by norm_num)]
  have habs : Complex.abs ⟨1, 1⟩ = Real.sqrt 2 := by
    rw [Complex.abs_apply, Complex.normSq_mk]
    norm_num
  rw [show ((⟨1, 1⟩ : ℂ).im : ℝ) = 1 from rfl, habs]
  have hs2 : Real.sqrt 2 ≠ 0 := ne_of_gt (Real.sqrt_pos.mpr (by norm_num))
  have hdiv : (1 : ℝ) / Real.sqrt 2 = Real.sqrt 2 / 2 := by
    rw [div_eq_div_iff hs2 (by norm_num : (2:ℝ) ≠ 0), Real.mul_self_sqrt (by norm_num)]
    norm_num
  rw [hdiv, ← Real.sin_pi_div_four]
  exact Real.arcsin_sin (by linarith [Real.pi_pos]) (by linarith [Real.pi_pos])

/-- `math.degrees π = 180`. -/
theorem degrees_pi : degrees Real.pi = 180 := by
  unfold degrees
  field_simp

/-- `math.degrees (π / 4) = 45`. -/
theorem degrees_pi_div_four : degrees (Real.pi / 4) = 45 := by
  unfold degrees
  field_simp
  ring

/-- C4 (amended): `_neck_angle` is `atan2(ear.x - shoulder.x, shoulder.y -
ear.y)` in degrees; for a vertically aligned pair (`ear.x = shoulder.x`) the
angle is 0° only when the ear sits above the shoulder (smaller y in the
downward-growing image coordinates, so `dy > 0`), and is 180° — not 0° — when
the ear sits below; ear (1,0) against shoulder (0,1) gives exactly 45°. -/
theorem neck_angle_spec (ear shoulder : LandmarkPoint) :
    _neck_angle ear shoulder
      = degrees (atan2 ((ear.x - shoulder.x : ℚ) : ℝ) ((shoulder.y - ear.y : ℚ) : ℝ)) ∧
    (ear.x = shoulder.x → ear.y < shoulder.y → _neck_angle ear shoulder = 0) ∧
    (ear.x = shoulder.x → shoulder.y < ear.y → _neck_angle ear shoulder = 180) ∧
    _neck_angle ⟨1, 0, 0, 1⟩ ⟨0, 1, 0, 1⟩ = 45 := by
  refine ⟨rfl, ?_, ?_, ?_⟩
  · intro hx hy
    unfold _neck_angle
    have hdx : ((ear.x - shoulder.x : ℚ) : ℝ) = 0 := by
      rw [hx]
      simp
    have hdy : (0 : ℝ) < ((shoulder.y - ear.y : ℚ) : ℝ) := by
      exact_mod_cast sub_pos.mpr hy
    rw [hdx, atan2_zero_of_pos _ hdy]
    simp [degrees]
  · intro hx hy
    unfold _neck_angle
    have hdx : ((ear.x - shoulder.x : ℚ) : ℝ) = 0 := by
      rw [hx]
      simp
    have hdy : ((shoulder.y - ear.y : ℚ) : ℝ) < 0 := by
      exact_mod_cast sub_neg.mpr hy
    rw [hdx, atan2_zero_of_neg _ hdy, degrees_pi]
  · unfold _neck_angle
    norm_num
    rw [atan2_one_one, degrees_pi_div_four]

/-- C4 counterexample: with the ear directly below the shoulder
(`ear.x = shoulder.x`, nonzero vertical offset of the opposite sign) the
code returns 180°, not the 0° the claim asserts for both signs. -/
theorem neck_angle_sign_counterexample :
    _neck_angle ⟨0, 1, 0, 1⟩ ⟨0, 0, 0, 1⟩ = 180 ∧ (180 : ℝ) ≠ 0 := by
  constructor
  · unfold _neck_angle
    norm_num
    rw [atan2_zero_of_neg _ (by norm_num), degrees_pi]
  · norm_num

/-- C4 witness: the amended zero case at a concrete vertically aligned pair
with the ear above the shoulder. -/
theorem neck_angle_spec_witness :
    _neck_angle ⟨0, 0, 0, 1⟩ ⟨0, 1, 0, 1⟩ = 0 :=
  (neck_angle_spec ⟨0, 0, 0, 1⟩ ⟨0, 1, 0, 1⟩).2.1 rfl (by norm_num)

/-- `tick` keeps the baseline-iff-`COMPLETE` correspondence when entered from
`CAPTURING` with no baseline, whether or not it finalizes. -/
theorem tick_baseline_inv (s : CalibrationManager) (now wall_now : ℚ)
    (hs : s.state = CalibrationState.CAPTURING) (hb : s.baseline = none) :
    ((tick s now wall_now).2.baseline ≠ none ↔
      (tick s now wall_now).2.state = CalibrationState.COMPLETE) := by
  unfold tick
  cases hst : s.start_time with
  | none => simp [hb, hs]
  | some t0 =>
    by_cases h : s.capture_duration ≤ now - t0
    · by_cases hf : s.frames = [] <;> simp [h, _finalize, hf, hb]
    · simp [h, hb, hs]

/-- In a `CAPTURING` session, `add_frame` with no detection reduces to the
elapsed-time check. -/
theorem add_frame_none_eq (s : CalibrationManager) (now wall_now : ℚ)
    (hs : s.state = CalibrationState.CAPTURING) :
    add_frame s none now wall_now = tick s now wall_now := by
  unfold add_frame
  rw [if_neg (by simp [hs])]

/-- In a `CAPTURING` session, `add_frame` with a detection filters, possibly
appends, then runs the elapsed-time check. -/
theorem add_frame_some_eq (s : CalibrationManager) (l : RawLandmarks) (now wall_now : ℚ)
    (hs : s.state = CalibrationState.CAPTURING) :
    add_frame s (some l) now wall_now =
      match _frame_is_usable s.min_visibility l with
      | Except.error e => (Except.error e, s)
      | Except.ok false => tick s now wall_now
      | Except.ok true =>
        match _extract_frame l with
        | Except.error e => (Except.error e, s)
        | Except.ok fr => tick { s with frames := s.frames ++ [fr] } now wall_now := by
  unfold add_frame
  rw [if_neg (by simp [hs])]

/-- C10: along every session reachable from the constructor by `start` and
`add_frame` calls, the stored baseline is present exactly when the state is
`COMPLETE`; the other three states always carry no baseline. -/
theorem reachable_baseline_iff_complete (s : CalibrationManager) (h : Reachable s) :
    (s.baseline ≠ none ↔ s.state = CalibrationState.COMPLETE) := by
  induction h with
  | init cd mv => simp [CalibrationManager.init]
  | start s now hr ih => simp [CalibrationManager.start]
  | frame s lm now wall_now hr ih =>
    by_cases hs : s.state = CalibrationState.CAPTURING
    · have hb : s.baseline = none := by
        by_contra hnb
        have hc := ih.mp hnb
        rw [hs] at hc
        exact absurd hc (by decide)
      cases lm with
      | none =>
        rw [add_frame_none_eq s now wall_now hs]
        exact tick_baseline_inv s now wall_now hs hb
      | some l =>
        rw [add_frame_some_eq s l now wall_now hs]
        cases hu : _frame_is_usable s.min_visibility l with
        | error e => simp [hb, hs]
        | ok bb =>
          cases bb with
          | false => exact tick_baseline_inv s now wall_now hs hb
          | true =>
            cases he : _extract_frame l with
            | error e => simp [hb, hs]
            | ok fr =>
              exact tick_baseline_inv
                { s with frames := s.frames ++ [fr] } now wall_now hs hb
    · have hnoop : add_frame s lm now wall_now = (Except.ok s.state, s) := by
        simp [add_frame, hs]
      rw [hnoop]
      exact ih

/-- C10 witness: the invariant at the freshly constructed session. -/
theorem reachable_baseline_iff_complete_witness :
    ((CalibrationManager.init 5 (1/2)).baseline ≠ none ↔
      (CalibrationManager.init 5 (1/2)).state = CalibrationState.COMPLETE) :=
  reachable_baseline_iff_complete (CalibrationManager.init 5 (1/2))
    (Reachable.init 5 (1/2))

end PostureCalib
